import Mathlib

/-!
Shallow embedding of the status-evaluation engine of check_dell_s_series.py
(Nagios check plugin for Dell EMC S-series switches).  SNMP fetch results are
modelled as already-decoded values: a walk result is a list of integer status
codes, a scalar get result is an optional tuple of decoded strings/integers
(`none` models an unreachable device or a missing entry).  Severities are the
Nagios return codes 0=OK, 1=WARNING, 2=CRITICAL, 3=UNKNOWN, kept as integers
exactly as the Python code keeps them.
-/

/-- Table Os10CmnOperStatus of the source, modelled with integer keys (the
Python dict is keyed by the decimal string of the code; the code always looks
it up at the decimal rendering of an integer, so the two are interchangeable).
Lookup of an unmapped code yields none, which the f-string renders as
"None". -/
def Os10CmnOperStatus (s : Int) : Option String :=
  if s = 1 then some "up"
  else if s = 2 then some "down"
  else if s = 3 then some "testing"
  else if s = 4 then some "unknown"
  else if s = 5 then some "dormant"
  else if s = 6 then some "notPresent"
  else if s = 7 then some "lowerLayerDown"
  else if s = 8 then some "failed"
  else none

/-- Rendering of Os10CmnOperStatus.get(str(status)) inside the f-string of
line 107: a missing entry is Python None, printed as "None". -/
def operStatusName (s : Int) : String :=
  match Os10CmnOperStatus s with
  | some n => n
  | none => "None"

/-- Per-component finding of line 107 of the source. -/
def operMsg (hw : String) (i : Nat) (s : Int) : String :=
  hw ++ " #" ++ toString i ++ " reported as " ++ operStatusName s

/-- The list of per-component findings produced by the loop of
get_snmp_oper_status, with 1-based indices starting at i. -/
def operMsgs (hw : String) (i : Nat) : List Int → List String
  | [] => []
  | s :: rest => operMsg hw i s :: operMsgs hw (i + 1) rest

/-- The loop of get_snmp_oper_status (lines 100-107): state is
(ret_code, count_fail, messages), one step per reading. -/
def operLoop (hw : String) : Nat → Int → Nat → List String → List Int →
    Int × Nat × List String
  | _, ret, cf, msgs, [] => (ret, cf, msgs)
  | i, ret, cf, msgs, s :: rest =>
    if s = 4 then
      operLoop hw (i + 1) 3 cf (msgs ++ [operMsg hw i s]) rest
    else if s ≠ 1 then
      operLoop hw (i + 1) ret (cf + 1) (msgs ++ [operMsg hw i s]) rest
    else
      operLoop hw (i + 1) ret cf (msgs ++ [operMsg hw i s]) rest

/-- Number of readings that increment count_fail: code neither 4 nor 1. -/
def countFail (vals : List Int) : Nat :=
  vals.countP fun s => decide (s ≠ 4 ∧ s ≠ 1)

/-- Embedding of get_snmp_oper_status (lines 90-120).  The SNMP walk result is
the already-decoded list of status codes; an unreachable device and a walk
returning no rows both arrive as the empty list, exactly as `if not vals`
sees them. -/
def get_snmp_oper_status (hw : String) (vals : List Int) (warn crit : Int) :
    Int × List String × List String :=
  if vals = [] then
    (3, ["Unable to get SNMP metrics from server !"], [])
  else
    let r := operLoop hw 1 0 0 [] vals
    let ret := r.1
    let cf := r.2.1
    let msgs := r.2.2
    if ret ≠ 3 then
      if cf = 0 then
        (0, ("All " ++ hw ++ " (s) OK") :: msgs, [])
      else
        let r1 : Int := if (cf : Int) < warn then 1 else ret
        let r2 : Int := if (cf : Int) < crit then 2 else r1
        (r2, ("Failed or error found for " ++ hw) :: msgs, [])
    else
      (ret, msgs, [])

lemma operMsgs_length (hw : String) : ∀ (vals : List Int) (i : Nat),
    (operMsgs hw i vals).length = vals.length := by
  intro vals
  induction vals with
  | nil => intro i; simp [operMsgs]
  | cons s rest ih => intro i; simp [operMsgs, ih]

lemma operMsgs_append (hw : String) : ∀ (xs ys : List Int) (i : Nat),
    operMsgs hw i (xs ++ ys) = operMsgs hw i xs ++ operMsgs hw (i + xs.length) ys := by
  intro xs
  induction xs with
  | nil => intro ys i; simp [operMsgs]
  | cons s rest ih =>
    intro ys i
    have h : i + 1 + rest.length = i + (rest.length + 1) := by omega
    simp [operMsgs, ih ys (i + 1), h]

lemma operLoop_spec (hw : String) : ∀ (vals : List Int) (i : Nat) (ret : Int)
    (cf : Nat) (msgs : List String),
    operLoop hw i ret cf msgs vals =
      ((if (4 : Int) ∈ vals then 3 else ret), cf + countFail vals,
        msgs ++ operMsgs hw i vals) := by
  intro vals
  induction vals with
  | nil => intro i ret cf msgs; simp [operLoop, countFail, operMsgs]
  | cons s rest ih =>
    intro i ret cf msgs
    by_cases h4 : s = 4
    · subst h4
      simp only [operLoop, if_pos rfl]
      rw [ih]
      simp [countFail, operMsgs, List.countP_cons]
    · by_cases h1 : s = 1
      · subst h1
        simp only [operLoop]
        rw [if_neg (by decide), if_neg (by simp)]
        rw [ih]
        simp [countFail, operMsgs, List.countP_cons]
      · have hm : ((4 : Int) ∈ s :: rest ↔ (4 : Int) ∈ rest) := by
          simp only [List.mem_cons]
          constructor
          · rintro (h | h)
            · exact absurd h.symm h4
            · exact h
          · intro h; exact Or.inr h
        simp only [operLoop]
        rw [if_neg h4, if_pos h1]
        rw [ih]
        simp only [Prod.mk.injEq]
        refine ⟨by simp [hm], ?_, by simp [operMsgs]⟩
        simp [countFail, List.countP_cons, h4, h1]
        omega

lemma gsos_with_unknown (hw : String) (vals : List Int) (warn crit : Int)
    (h4 : (4 : Int) ∈ vals) :
    get_snmp_oper_status hw vals warn crit = (3, operMsgs hw 1 vals, []) := by
  have hne : vals ≠ [] := by
    intro h; rw [h] at h4; exact absurd h4 (List.not_mem_nil 4)
  unfold get_snmp_oper_status
  rw [if_neg hne, operLoop_spec]
  simp [h4]

lemma gsos_no_unknown (hw : String) (vals : List Int) (warn crit : Int)
    (h4 : (4 : Int) ∉ vals) (hne : vals ≠ []) :
    get_snmp_oper_status hw vals warn crit =
      if countFail vals = 0 then
        (0, ("All " ++ hw ++ " (s) OK") :: operMsgs hw 1 vals, [])
      else
        ((if (countFail vals : Int) < crit then 2
          else if (countFail vals : Int) < warn then 1 else 0),
         ("Failed or error found for " ++ hw) :: operMsgs hw 1 vals, []) := by
  unfold get_snmp_oper_status
  rw [if_neg hne, operLoop_spec]
  simp only [if_neg h4]
  by_cases hcf : countFail vals = 0
  · simp [hcf]
  · simp [hcf]

/-- Finding of line 180 of the source (critical breach). -/
def critMsg (t c : Int) : String :=
  "Temperature sensor at " ++ toString t ++ "°C exceeds critical threshold (" ++
    toString c ++ "°C)"

/-- Finding of line 183 of the source (warning breach). -/
def warnMsg (t w : Int) : String :=
  "Temperature sensor at " ++ toString t ++ "°C exceeds warning threshold (" ++
    toString w ++ "°C)"

/-- Finding of line 185 of the source (no breach registered). -/
def plainMsg (t : Int) : String :=
  "Temperature sensor at " ++ toString t ++ "°C"

/-- Performance-data entry of line 186 of the source. -/
def metricStr (i : Nat) (t w c : Int) : String :=
  "temp" ++ toString i ++ "=" ++ toString t ++ "°C;" ++ toString w ++ ";" ++ toString c

/-- Fractional decimal digits of num/den (num < den), emitted while the
remainder is nonzero, up to the given fuel. -/
def fracDigits : Nat → Nat → Nat → String
  | 0, _, _ => ""
  | _ + 1, 0, _ => ""
  | fuel + 1, num, den => toString (num * 10 / den) ++ fracDigits fuel (num * 10 % den) den

/-- Rendering of str(s / n) for Python true division of an integer sum by a
positive count.  Python produces a float and prints its shortest decimal
form; this model prints the exact decimal expansion (with the mandatory
".0" for whole values), which coincides with Python whenever the quotient
has a short terminating expansion — in particular for the two-sensor reads
this plugin performs, whose quotients are halves. -/
def pyDivStr (s : Int) (n : Nat) : String :=
  if n = 0 then ""
  else
    let a := s.natAbs
    let digits := fracDigits 25 (a % n) n
    (if s < 0 then "-" else "") ++ toString (a / n) ++ "." ++
      (if digits = "" then "0" else digits)

/-- One step of the ret_code update of lines 178-186, extracted as a pure
severity transition. -/
def sevStep (warn crit ret t : Int) : Int :=
  if t > crit ∧ ret < 2 then 2
  else if t > warn ∧ ret < 1 then 1
  else ret

/-- The loop of get_temperatures (lines 177-186): state is
(ret_code, messages, perf_data), one step per reading, 1-based index. -/
def tempLoop (warn crit : Int) : Nat → Int → List String → List String → List Int →
    Int × List String × List String
  | _, ret, msgs, perf, [] => (ret, msgs, perf)
  | i, ret, msgs, perf, t :: rest =>
    if t > crit ∧ ret < 2 then
      tempLoop warn crit (i + 1) 2 (msgs ++ [critMsg t crit]) perf rest
    else if t > warn ∧ ret < 1 then
      tempLoop warn crit (i + 1) 1 (msgs ++ [warnMsg t warn]) perf rest
    else
      tempLoop warn crit (i + 1) ret (msgs ++ [plainMsg t])
        (perf ++ [metricStr i t warn crit]) rest

/-- Pairs every element with its index, starting at i. -/
def withIdx (i : Nat) : List α → List (Nat × α)
  | [] => []
  | a :: l => (i, a) :: withIdx (i + 1) l

/-- Embedding of get_temperatures (lines 166-191).  The SNMP get result is the
already-decoded list of readings; `none` entries model missing values, the
empty list models an unreachable device (`if not vals or None in vals`). -/
def get_temperatures (vals : List (Option Int)) (warn crit : Int) :
    Int × List String × List String :=
  if vals = [] ∨ none ∈ vals then
    (3, ["Unable to get SNMP metrics from server !"], [])
  else
    let ints := vals.reduceOption
    let r := tempLoop warn crit 1 0 [] [] ints
    if r.1 = 0 then
      (r.1, ("All temperature sensors OK with an average of " ++
              pyDivStr ints.sum vals.length ++ "°C") :: r.2.1, r.2.2)
    else r

/-- Final severity of the temperature loop, stated from the thresholds alone. -/
def sevFinal (warn crit : Int) (l : List Int) : Int :=
  if l.any fun t => decide (crit < t) then 2
  else if l.any fun t => decide (warn < t) then 1
  else 0

/-- Severity accumulated on the strict prefix before each reading, starting
from ret. -/
def sevBefore (warn crit : Int) (ret : Int) : List Int → List Int
  | [] => []
  | t :: rest => ret :: sevBefore warn crit (sevStep warn crit ret t) rest

/-- Guard deciding whether a reading emits a metric: neither escalation branch
of lines 178-183 fires for it, given the severity ret accumulated so far. -/
def emitB (warn crit ret t : Int) : Bool :=
  !(decide (crit < t) && decide (ret < 2)) && !(decide (warn < t) && decide (ret < 1))

lemma tempLoop_fst (warn crit : Int) : ∀ (l : List Int) (i : Nat) (ret : Int)
    (msgs perf : List String),
    (tempLoop warn crit i ret msgs perf l).1 = l.foldl (sevStep warn crit) ret := by
  intro l
  induction l with
  | nil => intro i ret msgs perf; simp [tempLoop]
  | cons t rest ih =>
    intro i ret msgs perf
    by_cases h1 : t > crit ∧ ret < 2
    · simp only [tempLoop, if_pos h1, List.foldl_cons]
      rw [ih]
      congr 1
      simp [sevStep, h1]
    · by_cases h2 : t > warn ∧ ret < 1
      · simp only [tempLoop, if_neg h1, if_pos h2, List.foldl_cons]
        rw [ih]
        congr 1
        simp [sevStep, h1, h2]
      · simp only [tempLoop, if_neg h1, if_neg h2, List.foldl_cons]
        rw [ih]
        congr 1
        simp [sevStep, h1, h2]

lemma foldl_sevStep_two (warn crit : Int) : ∀ (l : List Int),
    l.foldl (sevStep warn crit) 2 = 2 := by
  intro l
  induction l with
  | nil => simp
  | cons t rest ih =>
    simp only [List.foldl_cons]
    have h : sevStep warn crit 2 t = 2 := by simp [sevStep]
    rw [h, ih]

lemma foldl_sevStep_one (warn crit : Int) : ∀ (l : List Int),
    l.foldl (sevStep warn crit) 1 =
      if l.any fun t => decide (crit < t) then 2 else 1 := by
  intro l
  induction l with
  | nil => simp
  | cons t rest ih =>
    simp only [List.foldl_cons, List.any_cons]
    by_cases hc : crit < t
    · have h : sevStep warn crit 1 t = 2 := by simp [sevStep, hc]
      rw [h, foldl_sevStep_two]
      simp [hc]
    · have h : sevStep warn crit 1 t = 1 := by simp [sevStep, hc]
      rw [h, ih]
      simp [hc]

lemma foldl_sevStep_zero (warn crit : Int) : ∀ (l : List Int),
    l.foldl (sevStep warn crit) 0 = sevFinal warn crit l := by
  intro l
  induction l with
  | nil => simp [sevFinal]
  | cons t rest ih =>
    simp only [List.foldl_cons, sevFinal, List.any_cons]
    by_cases hc : crit < t
    · have h : sevStep warn crit 0 t = 2 := by simp [sevStep, hc]
      rw [h, foldl_sevStep_two]
      simp [hc]
    · by_cases hw : warn < t
      · have h : sevStep warn crit 0 t = 1 := by simp [sevStep, hc, hw]
        rw [h, foldl_sevStep_one]
        simp only [sevFinal] at *
        simp [hc, hw]
      · have h : sevStep warn crit 0 t = 0 := by simp [sevStep, hc, hw]
        rw [h, ih]
        simp only [sevFinal]
        simp [hc, hw]

lemma reduceOption_map_some_eq : ∀ (l : List Int), (l.map some).reduceOption = l := by
  intro l
  induction l with
  | nil => simp
  | cons t rest ih => simp [List.reduceOption_cons_of_some, ih]

lemma map_some_guard_false (l : List Int) (hne : l ≠ []) :
    ¬(l.map some = [] ∨ none ∈ l.map some) := by
  rintro (h | h)
  · exact hne (List.map_eq_nil_iff.mp h)
  · rcases List.mem_map.mp h with ⟨x, _, hx⟩
    exact Option.noConfusion hx

lemma get_temperatures_fst (l : List Int) (warn crit : Int) (hne : l ≠ []) :
    (get_temperatures (l.map some) warn crit).1 = sevFinal warn crit l := by
  have hf : (tempLoop warn crit 1 0 [] [] l).1 = sevFinal warn crit l := by
    rw [tempLoop_fst, foldl_sevStep_zero]
  unfold get_temperatures
  rw [if_neg (map_some_guard_false l hne)]
  simp only [reduceOption_map_some_eq]
  split <;> simpa using hf

lemma tempLoop_perf (warn crit : Int) : ∀ (l : List Int) (i : Nat) (ret : Int)
    (msgs perf : List String),
    (tempLoop warn crit i ret msgs perf l).2.2 =
      perf ++ ((withIdx i (l.zip (sevBefore warn crit ret l))).filter
          fun p => emitB warn crit p.2.2 p.2.1).map
        fun p => metricStr p.1 p.2.1 warn crit := by
  intro l
  induction l with
  | nil => intro i ret msgs perf; simp [tempLoop, sevBefore, withIdx]
  | cons t rest ih =>
    intro i ret msgs perf
    simp only [sevBefore, List.zip_cons_cons, withIdx]
    by_cases h1 : t > crit ∧ ret < 2
    · have he : emitB warn crit ret t = false := by
        rcases h1 with ⟨a, b⟩
        simp [emitB, decide_eq_true a, decide_eq_true b]
      have hs : sevStep warn crit ret t = 2 := by simp [sevStep, h1]
      simp only [tempLoop, if_pos h1]
      rw [ih]
      rw [hs]
      simp [List.filter_cons, he, List.zip]
    · by_cases h2 : t > warn ∧ ret < 1
      · have he : emitB warn crit ret t = false := by
          rcases h2 with ⟨a, b⟩
          simp [emitB, decide_eq_true a, decide_eq_true b]
        have hs : sevStep warn crit ret t = 1 := by simp [sevStep, h1, h2]
        simp only [tempLoop, if_neg h1, if_pos h2]
        rw [ih]
        rw [hs]
        simp [List.filter_cons, he, List.zip]
      · have e1 : (decide (crit < t) && decide (ret < 2)) = false := by
          by_cases a : crit < t
          · by_cases b : ret < 2
            · exact absurd ⟨a, b⟩ h1
            · simp [decide_eq_false b]
          · simp [decide_eq_false a]
        have e2 : (decide (warn < t) && decide (ret < 1)) = false := by
          by_cases a : warn < t
          · by_cases b : ret < 1
            · exact absurd ⟨a, b⟩ h2
            · simp [decide_eq_false b]
          · simp [decide_eq_false a]
        have he : emitB warn crit ret t = true := by
          simp [emitB, e1, e2]
        have hs : sevStep warn crit ret t = ret := by simp [sevStep, h1, h2]
        simp only [tempLoop, if_neg h1, if_neg h2]
        rw [ih]
        rw [hs]
        simp [List.filter_cons, he, List.zip]

lemma tempLoop_allOk (warn crit : Int) : ∀ (l : List Int),
    (∀ v ∈ l, v ≤ warn ∧ v ≤ crit) →
    ∀ (i : Nat) (ret : Int) (msgs perf : List String),
    tempLoop warn crit i ret msgs perf l =
      (ret, msgs ++ l.map plainMsg,
        perf ++ (withIdx i l).map fun p => metricStr p.1 p.2 warn crit) := by
  intro l
  induction l with
  | nil => intro _ i ret msgs perf; simp [tempLoop, withIdx]
  | cons t rest ih =>
    intro hok i ret msgs perf
    have ht := hok t (List.mem_cons_self t rest)
    have h1 : ¬(t > crit ∧ ret < 2) := by
      rintro ⟨a, _⟩; omega
    have h2 : ¬(t > warn ∧ ret < 1) := by
      rintro ⟨a, _⟩; omega
    simp only [tempLoop, if_neg h1, if_neg h2]
    rw [ih (fun v hv => hok v (List.mem_cons_of_mem t hv))]
    simp [withIdx]

lemma get_temperatures_allOk (l : List Int) (warn crit : Int) (hne : l ≠ [])
    (hok : ∀ v ∈ l, v ≤ warn ∧ v ≤ crit) :
    get_temperatures (l.map some) warn crit =
      (0, ("All temperature sensors OK with an average of " ++
            pyDivStr l.sum l.length ++ "°C") :: l.map plainMsg,
        (withIdx 1 l).map fun p => metricStr p.1 p.2 warn crit) := by
  unfold get_temperatures
  rw [if_neg (map_some_guard_false l hne)]
  simp only [reduceOption_map_some_eq]
  rw [tempLoop_allOk warn crit l hok 1 0 [] []]
  simp

lemma get_temperatures_perf (l : List Int) (warn crit : Int) :
    (get_temperatures (l.map some) warn crit).2.2 =
      ((withIdx 1 (l.zip (sevBefore warn crit 0 l))).filter
          fun p => emitB warn crit p.2.2 p.2.1).map
        fun p => metricStr p.1 p.2.1 warn crit := by
  by_cases hne : l = []
  · subst hne
    simp [get_temperatures, sevBefore, withIdx]
  · unfold get_temperatures
    rw [if_neg (map_some_guard_false l hne)]
    simp only [reduceOption_map_some_eq]
    rw [show ∀ (r : Int × List String × List String) (m : String),
          (if r.1 = 0 then (r.1, m :: r.2.1, r.2.2) else r).2.2 = r.2.2 from by
        intro r m; split <;> rfl]
    rw [tempLoop_perf]
    simp

lemma gsos_perf (hw : String) (vals : List Int) (warn crit : Int) :
    (get_snmp_oper_status hw vals warn crit).2.2 = [] := by
  by_cases hne : vals = []
  · simp [get_snmp_oper_status, hne]
  · by_cases h4 : (4 : Int) ∈ vals
    · rw [gsos_with_unknown hw vals warn crit h4]
    · rw [gsos_no_unknown hw vals warn crit h4 hne]
      split <;> rfl

/-- Table Os10ChassisDefType of the source, keyed by the decoded chassis-type
string exactly as the Python dict is. -/
def Os10ChassisDefType (k : String) : Option String :=
  if k = "1" then some "s6000on"
  else if k = "2" then some "s4048on"
  else if k = "3" then some "s4048Ton"
  else if k = "4" then some "s3048on"
  else if k = "5" then some "s6010on"
  else if k = "6" then some "s4148Fon"
  else if k = "7" then some "s4128Fon"
  else if k = "8" then some "s4148Ton"
  else if k = "9" then some "s4128Ton"
  else if k = "10" then some "s4148FEon"
  else if k = "11" then some "s4148Uon"
  else if k = "12" then some "s4200on"
  else if k = "13" then some "mx5108Non"
  else if k = "14" then some "mx9116Non"
  else if k = "15" then some "s5148Fon"
  else if k = "16" then some "z9100on"
  else if k = "17" then some "s4248FBon"
  else if k = "18" then some "s4248FBLon"
  else if k = "19" then some "s4112Fon"
  else if k = "20" then some "s4112Ton"
  else if k = "21" then some "z9264Fon"
  else if k = "22" then some "z9224Fon"
  else if k = "23" then some "s5212Fon"
  else if k = "24" then some "s5224Fon"
  else if k = "25" then some "s5232Fon"
  else if k = "26" then some "s5248Fon"
  else if k = "27" then some "s5296Fon"
  else if k = "28" then some "z9332Fon"
  else if k = "29" then some "n3248TEon"
  else if k = "9999" then some "unknown"
  else none

/-- Rendering of Os10ChassisDefType.get(...) inside the f-string of line 143:
a missing entry is Python None, printed as "None". -/
def chassisName (k : String) : String :=
  match Os10ChassisDefType k with
  | some n => n
  | none => "None"

/-- Table Os10CardOperStatus of the source, modelled with the card status code
as an integer (the Python dict is keyed by the decimal string the device
returned, which is also what int() parses into card_status). -/
def Os10CardOperStatus (s : Int) : Option String :=
  if s = 1 then some "ready"
  else if s = 2 then some "cardMisMatch"
  else if s = 3 then some "cardProblem"
  else if s = 4 then some "diagMode"
  else if s = 5 then some "cardAbsent"
  else if s = 6 then some "offline"
  else none

/-- Rendering of Os10CardOperStatus.get(vals[3]) inside the f-string of line
155: a missing entry is Python None, printed as "None". -/
def cardStatusName (s : Int) : String :=
  match Os10CardOperStatus s with
  | some n => n
  | none => "None"

/-- Embedding of get_system_info (lines 123-163).  Each of the three SNMP
fetches is modelled as an optional tuple of already-decoded values (`none`
covers an empty result and a result with a missing entry, the two cases
of `if not vals or None in vals`); the card status arrives pre-parsed as
the integer that int(vals[3]) yields. -/
def get_system_info (sys : Option (String × String × String))
    (chassis : Option (String × String × String × String))
    (card : Option (String × String × String × Int × String)) :
    Int × List String × List String :=
  match sys with
  | none => (3, ["Unable to get SNMP metrics from server !"], [])
  | some (sysName, sysOid, sysDescr) =>
    match chassis with
    | none => (3, ["Unable to get SNMP metrics from server !"], [])
    | some (ctype, crev, cpn, ctag) =>
      match card with
      | none => (3, ["Unable to get SNMP metrics from server !"], [])
      | some (cdescr, chwrev, cardpn, cstatus, cstag) =>
        let m1 := sysName ++ " ( " ++ sysOid ++ " )\n" ++ sysDescr
        let m2 := "Chassis: " ++ chassisName ctype ++ " (rev. " ++ crev ++
          ") - p/n: " ++ cpn ++ " - ServiceTag: " ++ ctag
        let m3 := "Card: " ++ cdescr ++ " (rev. " ++ chwrev ++ ") - p/n: " ++
          cardpn ++ " - ServiceTag: " ++ cstag ++ " - Status: " ++
          cardStatusName cstatus
        let ret : Int := 0
        let ret2 : Int :=
          if cstatus ≠ 1 then
            if (cstatus = 4 ∨ cstatus = 6) ∧ ret < 1 then 1 else 2
          else ret
        (ret2, [m1, m2, m3], [])

/-- C1: in get_snmp_oper_status, when no reading has code 4 and the failure
counter is positive, severity is set by two sequentially evaluated,
non-exclusive conditions: WARNING when the counter is below warn, then
CRITICAL (overriding WARNING) when it is below crit; so the final severity
is 2 whenever the counter is below crit, 1 when it is at or above crit but
below warn, and otherwise 0. -/
theorem C1_oper_warning_then_critical_override (hw : String) (warn crit : Int)
    (vals : List Int) (h4 : (4 : Int) ∉ vals) (hf : 0 < countFail vals) :
    (get_snmp_oper_status hw vals warn crit).1 =
      if (countFail vals : Int) < crit then 2
      else if (countFail vals : Int) < warn then 1 else 0 := by
  have hne : vals ≠ [] := by
    intro h; rw [h] at hf; simp [countFail] at hf
  rw [gsos_no_unknown hw vals warn crit h4 hne, if_neg (by omega)]

/-- C1 witness: warnCount 1, critCount 2 and exactly one failing reading
yield severity CRITICAL, not WARNING. -/
theorem C1_oper_warning_then_critical_override_witness :
    0 < countFail [2] ∧ (get_snmp_oper_status "fan" [2] 1 2).1 = 2 := by
  refine ⟨by decide, ?_⟩
  have h := C1_oper_warning_then_critical_override "fan" 1 2 [2] (by decide) (by decide)
  rw [h]
  decide

/-- C2 counterexample: on a total fetch failure the single finding is the
literal string of line 98 of the source, not "Unable to retrieve metrics";
the same short-circuit triple is also what an empty walk (zero components
present) produces, since the code only sees the empty list. -/
theorem C2_no_data_counterexample :
    (get_snmp_oper_status "fan" [] 1 2).2.1 ≠ ["Unable to retrieve metrics"] ∧
    get_snmp_oper_status "fan" [] 1 2 =
      (3, ["Unable to get SNMP metrics from server !"], []) := by
  exact ⟨by decide, rfl⟩

/-- C2 (amended): for every check kind, when the Reading Source yields no
data the engine returns severity 3 (UNKNOWN) with the single finding
"Unable to get SNMP metrics from server !" and an empty metric set, with no
further processing; for the operational-status check the short-circuit fires
exactly on an empty fetched list, which the code cannot distinguish from a
successful fetch reporting zero components present. -/
theorem C2_no_data_unknown (hw : String) (warn crit wc cc : Int)
    (l : List (Option Int)) (hl : l = [] ∨ none ∈ l)
    (chassis : Option (String × String × String × String))
    (card : Option (String × String × String × Int × String)) :
    get_snmp_oper_status hw [] warn crit =
      (3, ["Unable to get SNMP metrics from server !"], []) ∧
    get_temperatures l wc cc =
      (3, ["Unable to get SNMP metrics from server !"], []) ∧
    get_system_info none chassis card =
      (3, ["Unable to get SNMP metrics from server !"], []) ∧
    (∀ sys : String × String × String,
      get_system_info (some sys) none card =
        (3, ["Unable to get SNMP metrics from server !"], [])) ∧
    (∀ (sys : String × String × String)
        (ch : String × String × String × String),
      get_system_info (some sys) (some ch) none =
        (3, ["Unable to get SNMP metrics from server !"], [])) := by
  refine ⟨rfl, ?_, rfl, fun sys => ?_, fun sys ch => ?_⟩
  · unfold get_temperatures
    rw [if_pos hl]
  · obtain ⟨a, b, c⟩ := sys
    rfl
  · obtain ⟨a, b, c⟩ := sys
    obtain ⟨d, e, f, g⟩ := ch
    rfl

/-- C2 witness: concrete instances of the short-circuit for the
operational-status check and for a temperature fetch with a missing entry. -/
theorem C2_no_data_unknown_witness :
    get_snmp_oper_status "fan" [] 1 2 =
      (3, ["Unable to get SNMP metrics from server !"], []) ∧
    get_temperatures [none] 50 60 =
      (3, ["Unable to get SNMP metrics from server !"], []) := by
  have h := C2_no_data_unknown "fan" 1 2 50 60 [none] (by simp) none none
  exact ⟨h.1, h.2.1⟩

/-- C3 counterexample: with thresholds warn 50 and crit 60, the readings
[70, 70] both breach both thresholds, yet the second reading emits the
metric temp2, because the severity was already CRITICAL when it was
processed. -/
theorem C3_metric_counterexample :
    (50 : Int) < 70 ∧ (60 : Int) < 70 ∧
    (get_temperatures [some 70, some 70] 50 60).2.2 = ["temp2=70°C;50;60"] := by
  exact ⟨by decide, by decide, by decide⟩

/-- C3 (amended): a metric entry is emitted for a reading exactly when
neither escalation guard of get_temperatures fires for it, that is when the
reading does not breach crit while severity is still below CRITICAL and does
not breach warn while severity is still below WARNING, the severity being
the one accumulated on the strict prefix of readings; a breaching reading
processed after the severity has already escalated therefore still emits a
metric.  Operational-status checks emit no metrics at all. -/
theorem C3_metrics_characterization (hw : String) (wc cc : Int)
    (ov : List Int) (warn crit : Int) (l : List Int) :
    (get_snmp_oper_status hw ov wc cc).2.2 = [] ∧
    (get_temperatures (l.map some) warn crit).2.2 =
      ((withIdx 1 (l.zip (sevBefore warn crit 0 l))).filter
          fun p => emitB warn crit p.2.2 p.2.1).map
        fun p => metricStr p.1 p.2.1 warn crit :=
  ⟨gsos_perf hw ov wc cc, get_temperatures_perf l warn crit⟩

/-- C4: when no reading has code 4 and the failure counter is positive but at
or above both warnCount and critCount, neither threshold branch fires, so the
severity stays OK while the summary finding is still inserted at position 0. -/
theorem C4_oper_ok_when_counter_at_or_above_thresholds (hw : String)
    (warn crit : Int) (vals : List Int) (h4 : (4 : Int) ∉ vals)
    (hf : 0 < countFail vals) (hwn : warn ≤ (countFail vals : Int))
    (hcr : crit ≤ (countFail vals : Int)) :
    (get_snmp_oper_status hw vals warn crit).1 = 0 ∧
    (get_snmp_oper_status hw vals warn crit).2.1.head? =
      some ("Failed or error found for " ++ hw) := by
  have hne : vals ≠ [] := by
    intro h; rw [h] at hf; simp [countFail] at hf
  have hx : (if (countFail vals : Int) < crit then (2 : Int)
      else if (countFail vals : Int) < warn then 1 else 0) = 0 := by
    rw [if_neg (by omega), if_neg (by omega)]
  rw [gsos_no_unknown hw vals warn crit h4 hne, if_neg (by omega), hx]
  exact ⟨rfl, rfl⟩

/-- C4 witness: the power-check defaults warn 0, crit 1 with one failing PSU
leave severity OK while the summary finding leads the output. -/
theorem C4_oper_ok_when_counter_at_or_above_thresholds_witness :
    (get_snmp_oper_status "PSU" [2] 0 1).1 = 0 ∧
    (get_snmp_oper_status "PSU" [2] 0 1).2.1.head? =
      some ("Failed or error found for " ++ "PSU") :=
  C4_oper_ok_when_counter_at_or_above_thresholds "PSU" 0 1 [2]
    (by decide) (by decide) (by decide) (by decide)

/-- C5: any reading list containing code 4 yields final severity 3 (UNKNOWN)
regardless of the thresholds, the findings being exactly the per-component
findings of the loop, one per reading, with no summary inserted. -/
theorem C5_unknown_sticky (hw : String) (warn crit : Int) (vals : List Int)
    (h4 : (4 : Int) ∈ vals) :
    (get_snmp_oper_status hw vals warn crit).1 = 3 ∧
    (get_snmp_oper_status hw vals warn crit).2.1 = operMsgs hw 1 vals ∧
    (get_snmp_oper_status hw vals warn crit).2.1.length = vals.length := by
  rw [gsos_with_unknown hw vals warn crit h4]
  exact ⟨rfl, rfl, operMsgs_length hw vals 1⟩

/-- C5 witness: with readings [1, 4, 2] the result is UNKNOWN with exactly
three per-component findings. -/
theorem C5_unknown_sticky_witness :
    (get_snmp_oper_status "fan" [1, 4, 2] 1 2).1 = 3 ∧
    (get_snmp_oper_status "fan" [1, 4, 2] 1 2).2.1.length = 3 := by
  have h := C5_unknown_sticky "fan" 1 2 [1, 4, 2] (by decide)
  exact ⟨h.1, h.2.2⟩

/-- C6 counterexample: with a misconfigured pair warn 60, crit 50 the single
reading 55 is at or below the warning threshold, yet the severity is
CRITICAL, not OK, because the code compares against crit first and the
engine executes its comparisons literally. -/
theorem C6_all_ok_counterexample :
    (55 : Int) ≤ 60 ∧ (get_temperatures [some 55] 60 50).1 = 2 := by
  exact ⟨by decide, by decide⟩

/-- C6 (amended): for every non-empty reading list in which every value is at
or below both warnThreshold and critThreshold, the final severity is OK, a
metric is emitted for every reading, and the finding at index 0 reports the
exact arithmetic mean of the readings. -/
theorem C6_temp_all_ok_mean (warn crit : Int) (l : List Int) (hne : l ≠ [])
    (hok : ∀ v ∈ l, v ≤ warn ∧ v ≤ crit) :
    (get_temperatures (l.map some) warn crit).1 = 0 ∧
    (get_temperatures (l.map some) warn crit).2.1.head? =
      some ("All temperature sensors OK with an average of " ++
        pyDivStr l.sum l.length ++ "°C") ∧
    (get_temperatures (l.map some) warn crit).2.2 =
      (withIdx 1 l).map fun p => metricStr p.1 p.2 warn crit := by
  rw [get_temperatures_allOk l warn crit hne hok]
  exact ⟨rfl, rfl, rfl⟩

/-- C6 witness: readings [30, 35] with warn 50 and crit 60 give severity OK,
summary finding with average 32.5°C, and the two metrics. -/
theorem C6_temp_all_ok_mean_witness :
    (get_temperatures (([30, 35] : List Int).map some) 50 60).1 = 0 ∧
    (get_temperatures (([30, 35] : List Int).map some) 50 60).2.1.head? =
      some "All temperature sensors OK with an average of 32.5°C" ∧
    (get_temperatures (([30, 35] : List Int).map some) 50 60).2.2 =
      ["temp1=30°C;50;60", "temp2=35°C;50;60"] := by
  have h := C6_temp_all_ok_mean 50 60 [30, 35] (by decide)
    (by intro v hv; fin_cases hv <;> exact ⟨by decide, by decide⟩)
  refine ⟨h.1, ?_, ?_⟩
  · rw [h.2.1]
    decide
  · rw [h.2.2]
    decide

/-- C7 counterexample: with zero failures the finding at element 0 is
"All fan (s) OK" (with a space before the parenthesis), not the claimed
"All fan(s) OK". -/
theorem C7_summary_counterexample :
    (get_snmp_oper_status "fan" [1] 1 2).2.1.head? ≠ some "All fan(s) OK" ∧
    (get_snmp_oper_status "fan" [1] 1 2).2.1.head? = some "All fan (s) OK" := by
  exact ⟨by decide, by decide⟩

/-- C7 (amended): for every non-empty reading list with zero failures (every
code is 1), the severity is OK and the findings list is the summary
"All {componentLabel} (s) OK" (note the space before "(s)") followed by one
per-component finding per reading. -/
theorem C7_zero_failures_ok (hw : String) (warn crit : Int) (vals : List Int)
    (hne : vals ≠ []) (h1 : ∀ s ∈ vals, s = 1) :
    (get_snmp_oper_status hw vals warn crit).1 = 0 ∧
    (get_snmp_oper_status hw vals warn crit).2.1 =
      ("All " ++ hw ++ " (s) OK") :: operMsgs hw 1 vals ∧
    (get_snmp_oper_status hw vals warn crit).2.1.length = vals.length + 1 := by
  have h4 : (4 : Int) ∉ vals := by
    intro h
    exact absurd (h1 4 h) (by decide)
  have hcf : countFail vals = 0 := by
    rw [countFail, List.countP_eq_zero]
    intro s hs
    have h := h1 s hs
    subst h
    decide
  rw [gsos_no_unknown hw vals warn crit h4 hne, if_pos hcf]
  refine ⟨rfl, rfl, ?_⟩
  simp [operMsgs_length]

/-- C7 witness: two readings of code 1 give severity OK and the spaced
summary at element 0 of three findings. -/
theorem C7_zero_failures_ok_witness :
    (get_snmp_oper_status "fan" [1, 1] 1 2).1 = 0 ∧
    (get_snmp_oper_status "fan" [1, 1] 1 2).2.1.length = 2 + 1 := by
  have h := C7_zero_failures_ok "fan" 1 2 [1, 1] (by decide)
    (by intro s hs; fin_cases hs <;> rfl)
  exact ⟨h.1, h.2.2⟩

/-- C8: in get_system_info, when all three fetches succeed, severity is
driven only by the card status code: 0 for code 1, 1 for codes 4 and 6
(the current severity being still OK at that point), 2 for any other
code; the findings are the three accumulated fetch messages with no summary
inserted and the metric set is empty. -/
theorem C8_health_card_driven (a b c d e f g hh ii jj kk : String)
    (status : Int) :
    get_system_info (some (a, b, c)) (some (d, e, f, g))
        (some (hh, ii, jj, status, kk)) =
      ((if status = 1 then 0 else if status = 4 ∨ status = 6 then 1 else 2),
       [a ++ " ( " ++ b ++ " )\n" ++ c,
        "Chassis: " ++ chassisName d ++ " (rev. " ++ e ++ ") - p/n: " ++ f ++
          " - ServiceTag: " ++ g,
        "Card: " ++ hh ++ " (rev. " ++ ii ++ ") - p/n: " ++ jj ++
          " - ServiceTag: " ++ kk ++ " - Status: " ++ cardStatusName status],
       []) := by
  simp only [get_system_info]
  by_cases h1 : status = 1
  · simp [h1]
  · by_cases h46 : status = 4 ∨ status = 6
    · simp [h1, h46]
    · simp [h1, h46]

/-- C9: a reading whose code lies outside the 8-entry enumeration resolves to
the sentinel None rather than failing, still produces a per-component finding
labeled "reported as None" at its position, and does not by itself force the
severity to UNKNOWN when no reading has code 4. -/
theorem C9_unrecognized_code (hw : String) (warn crit : Int)
    (before after : List Int) (c : Int) (hc : c < 1 ∨ 8 < c)
    (h4 : (4 : Int) ∉ before ++ c :: after) :
    Os10CmnOperStatus c = none ∧
    (hw ++ " #" ++ toString (before.length + 1) ++ " reported as None")
      ∈ (get_snmp_oper_status hw (before ++ c :: after) warn crit).2.1 ∧
    (get_snmp_oper_status hw (before ++ c :: after) warn crit).1 ≠ 3 := by
  have hnone : Os10CmnOperStatus c = none := by
    unfold Os10CmnOperStatus
    split_ifs
    all_goals first | rfl | (exfalso; omega)
  have hne : before ++ c :: after ≠ [] := by simp
  have hname : operMsg hw (before.length + 1) c =
      hw ++ " #" ++ toString (before.length + 1) ++ " reported as None" := by
    unfold operMsg operStatusName
    rw [hnone]
    simp [String.append_assoc]
  have hmem : (hw ++ " #" ++ toString (before.length + 1) ++ " reported as None")
      ∈ operMsgs hw 1 (before ++ c :: after) := by
    rw [operMsgs_append hw before (c :: after) 1]
    apply List.mem_append_right
    rw [show operMsgs hw (1 + before.length) (c :: after) =
        operMsg hw (1 + before.length) c ::
          operMsgs hw (1 + before.length + 1) after from rfl]
    rw [show 1 + before.length = before.length + 1 from by omega]
    rw [hname]
    exact List.mem_cons_self _ _
  have hsev : (get_snmp_oper_status hw (before ++ c :: after) warn crit).1 ≠ 3 := by
    rw [gsos_no_unknown hw _ warn crit h4 hne]
    split
    · norm_num
    · split_ifs <;> norm_num
  refine ⟨hnone, ?_, hsev⟩
  rw [gsos_no_unknown hw _ warn crit h4 hne]
  split
  · exact List.mem_cons_of_mem _ hmem
  · exact List.mem_cons_of_mem _ hmem

/-- C9 witness: a single reading of code 0 yields the finding
"fan #1 reported as None" and a severity different from UNKNOWN. -/
theorem C9_unrecognized_code_witness :
    Os10CmnOperStatus 0 = none ∧
    "fan #1 reported as None" ∈ (get_snmp_oper_status "fan" [0] 1 2).2.1 ∧
    (get_snmp_oper_status "fan" [0] 1 2).1 ≠ 3 := by
  have h := C9_unrecognized_code "fan" 1 2 [] [] 0 (Or.inl (by decide)) (by decide)
  exact ⟨h.1, h.2.1, h.2.2⟩

/-- C10: for permuted non-empty temperature reading lists the final severity
agrees, and it is 2 exactly when some reading exceeds crit, otherwise 1
exactly when some reading exceeds warn, otherwise 0, even though findings
and metrics may differ between the orderings. -/
theorem C10_temp_severity_perm_invariant (warn crit : Int) (l1 l2 : List Int)
    (hp : l1.Perm l2) (hne : l1 ≠ []) :
    (get_temperatures (l1.map some) warn crit).1 =
      (get_temperatures (l2.map some) warn crit).1 ∧
    (get_temperatures (l1.map some) warn crit).1 =
      (if l1.any fun t => decide (crit < t) then 2
       else if l1.any fun t => decide (warn < t) then 1 else 0) := by
  have hne2 : l2 ≠ [] := by
    intro h
    subst h
    exact hne hp.eq_nil
  have hany : ∀ p : Int → Bool, l1.any p = l2.any p := by
    intro p
    cases hb : l2.any p
    · cases hb1 : l1.any p
      · rfl
      · exfalso
        rcases List.any_eq_true.mp hb1 with ⟨x, hx, hpx⟩
        have h2 : l2.any p = true := List.any_eq_true.mpr ⟨x, hp.mem_iff.mp hx, hpx⟩
        rw [hb] at h2
        exact Bool.noConfusion h2
    · rcases List.any_eq_true.mp hb with ⟨x, hx, hpx⟩
      exact List.any_eq_true.mpr ⟨x, hp.mem_iff.mpr hx, hpx⟩
  constructor
  · rw [get_temperatures_fst l1 warn crit hne,
      get_temperatures_fst l2 warn crit hne2]
    unfold sevFinal
    rw [hany, hany]
  · rw [get_temperatures_fst l1 warn crit hne]
    rfl

/-- C10 witness: [30, 70] and [70, 30] with warn 50 and crit 60 both give
severity 2. -/
theorem C10_temp_severity_perm_invariant_witness :
    (get_temperatures (([30, 70] : List Int).map some) 50 60).1 =
      (get_temperatures (([70, 30] : List Int).map some) 50 60).1 ∧
    (get_temperatures (([30, 70] : List Int).map some) 50 60).1 = 2 := by
  have h := C10_temp_severity_perm_invariant 50 60 [30, 70] [70, 30]
    (List.Perm.swap 70 30 []) (by decide)
  refine ⟨h.1, ?_⟩
  rw [h.2]
  decide
